import Mathlib

/-!
Verification development for the logwrap repository (pretty-printer and
call-logging decorator).

The Python sources are shallowly embedded below:

* `PyObj` models the universe of runtime values the formatter processes
  (scalars, the five recognized container types, plain functions, and
  values exposing the per-mode render hooks);
* `processElement` models `PrettyFormat.process_element`
  (src/logwrap/repr_utils.pyx, lines 251-301) together with the
  mode-specific helpers of `PrettyRepr` and `PrettyStr`;
* `boundParameterStr`, `getFuncArgsRepr`, `wrapperV1`, `wrapperV3` model the
  call logger (src/logwrap/log_wrap.pyx).

Machine integers do not occur on the modelled paths (indents are Python
ints, i.e. unbounded), so Nat is used directly.  Python builtins `repr`
and `str` are modelled by `pyRepr` / `pyStr` for the value universe above;
the CPython escaping rules for rare control characters and the memory
addresses inside default function reprs are outside the value universe the
development evaluates and are noted at the definitions.
-/

/-- Parameter kinds of the Python `inspect` module
(log_wrap.pyx lines 57-61, repr_utils.pyx lines 63-67). -/
inductive PKind where
  | positionalOnly
  | positionalOrKeyword
  | varPositional
  | keywordOnly
  | varKeyword
deriving DecidableEq

/-- Formatting mode: `PrettyRepr` (repr-style) or `PrettyStr` (str-style). -/
inductive FmtMode where
  | reprStyle
  | strStyle
deriving DecidableEq

/-- Configuration of `PrettyFormat.__cinit__` (repr_utils.pyx lines 131-140):
`max_indent` and `indent_step`, plus the mode selecting the subclass
(`PrettyRepr` stores magic method name `__pretty_repr__`, `PrettyStr` stores
`__pretty_str__`; the mode field plays the role of that name). -/
structure PrettyFormat where
  mode : FmtMode
  maxIndent : Nat
  indentStep : Nat

/-- Constructor corresponding to `PrettyRepr(max_indent, indent_step)`. -/
def PrettyRepr (maxIndent indentStep : Nat) : PrettyFormat :=
  ⟨FmtMode.reprStyle, maxIndent, indentStep⟩

/-- Constructor corresponding to `PrettyStr(max_indent, indent_step)`. -/
def PrettyStr (maxIndent indentStep : Nat) : PrettyFormat :=
  ⟨FmtMode.strStyle, maxIndent, indentStep⟩

/-- Model of `PrettyFormat.next_indent` (repr_utils.pyx lines 142-152):
`indent + multiplier * indent_step`.  The Python default multiplier is 1;
callers below always pass the multiplier explicitly. -/
def nextIndent (fmt : PrettyFormat) (indent mult : Nat) : Nat :=
  indent + mult * fmt.indentStep

/-- Padding `"{spc:<{indent}}".format(spc="")`: a run of `n` spaces. -/
def spaces (n : Nat) : String :=
  String.mk (List.replicate n ' ')

/-- Model of `str.join`: `joinSep sep [a, b, c] = a ++ sep ++ b ++ sep ++ c`. -/
def joinSep (sep : String) : List String → String
  | [] => ""
  | [x] => x
  | x :: y :: xs => x ++ sep ++ joinSep sep (y :: xs)

/-- Left-justification of a string to a field width, as performed by the
format spec `"{key!r:{size}}"` (space fill, left alignment, no truncation). -/
def leftJust (s : String) (w : Nat) : String :=
  s ++ spaces (w - s.length)

/-- Occurrence of one character list inside another, by scanning. -/
def listInfix (needle : List Char) : List Char → Bool
  | [] => needle.isPrefixOf []
  | c :: t => needle.isPrefixOf (c :: t) || listInfix needle t

/-- Substring test used to state properties of rendered text: true iff
`needle` occurs inside `hay`. -/
def strContains (hay needle : String) : Bool :=
  listInfix needle.data hay.data

/-- Prefix test used to state properties of rendered text. -/
def strStarts (hay pre : String) : Bool :=
  pre.data.isPrefixOf hay.data

/-- Suffix test used to state properties of rendered text. -/
def strEnds (hay sfx : String) : Bool :=
  sfx.data.reverse.isPrefixOf hay.data.reverse

/-- Universe of Python runtime values handled by the formatter.

* `vBytes` stores the text obtained by
  `val.decode(encoding="utf-8", errors="backslashreplace")`
  (repr_utils.pyx lines 347-348, 508-509), which is the only way the
  formatter consumes a byte-string.
* `vFunc` models a plain function (`types.FunctionType`): qualified name,
  declared parameters as `(name, kind, annotation display, default)` in the
  shape produced by `inspect.signature(...).parameters`, and the display of
  the return annotation (already in its `repr` form, as consumed by
  `"{sig.return_annotation!r}"`).  Bound methods, whose only difference is a
  pre-filled first parameter, are not needed by the claims.
* `vHooked` models a value carrying the per-mode render hooks
  `__pretty_repr__` / `__pretty_str__` (each a callable taking the
  formatter, the indent and the no-indent-start flag) on top of an
  underlying value. -/
inductive PyObj where
  | vNone
  | vBool (b : Bool)
  | vInt (n : Int)
  | vStr (s : String)
  | vBytes (s : String)
  | vList (xs : List PyObj)
  | vTuple (xs : List PyObj)
  | vSet (xs : List PyObj)
  | vFrozenset (xs : List PyObj)
  | vDict (entries : List (PyObj × PyObj))
  | vFunc (fname : String) (params : List (String × PKind × Option String × Option PyObj))
      (retAnnot : Option String)
  | vHooked (hookRepr hookStr : Option (PrettyFormat → Nat → Bool → String)) (inner : PyObj)

/-- Quote character chosen by the CPython `repr` of a text string: a single
quote, unless the string contains a single quote and no double quote. -/
def pyQuoteChar (s : String) : Char :=
  if s.data.contains (Char.ofNat 39) && !(s.data.contains (Char.ofNat 34)) then Char.ofNat 34
  else Char.ofNat 39

/-- Escape of one character inside the CPython `repr` of a text string with
quote character `q`.  The hexadecimal escapes CPython uses for other
non-printable characters are outside the character set this development
evaluates on. -/
def pyReprEscChar (q c : Char) : String :=
  if c = '\\' then "\\\\"
  else if c = '\n' then "\\n"
  else if c = '\r' then "\\r"
  else if c = '\t' then "\\t"
  else if c = q then "\\" ++ String.singleton q
  else String.singleton c

/-- Model of the CPython builtin `repr` on a text string. -/
def pyReprStr (s : String) : String :=
  let q := pyQuoteChar s
  String.singleton q ++ String.join (s.toList.map (pyReprEscChar q)) ++ String.singleton q

mutual

/-- Model of the CPython builtin `repr` on the value universe.  Containers
use the native literal syntax (this is what the formatter falls back to in
`"{val!r}"`); a plain function displays as `<function name>` (the memory
address CPython appends is not observable in this embedding and is omitted
uniformly); a value carrying render hooks displays as its underlying
value. -/
def pyRepr : PyObj → String
  | .vNone => "None"
  | .vBool b => if b then "True" else "False"
  | .vInt n => toString n
  | .vStr s => pyReprStr s
  | .vBytes s => "b" ++ pyReprStr s
  | .vList xs => "[" ++ joinSep ", " (pyReprList xs) ++ "]"
  | .vTuple [x] => "(" ++ pyRepr x ++ ",)"
  | .vTuple xs => "(" ++ joinSep ", " (pyReprList xs) ++ ")"
  | .vSet [] => "set()"
  | .vSet xs => "\x7b" ++ joinSep ", " (pyReprList xs) ++ "\x7d"
  | .vFrozenset [] => "frozenset()"
  | .vFrozenset xs => "frozenset(\x7b" ++ joinSep ", " (pyReprList xs) ++ "\x7d)"
  | .vDict es => "\x7b" ++ joinSep ", " (pyReprEntries es) ++ "\x7d"
  | .vFunc fname _ _ => "<function " ++ fname ++ ">"
  | .vHooked _ _ inner => pyRepr inner

/-- Elementwise `repr` of a list of values. -/
def pyReprList : List PyObj → List String
  | [] => []
  | x :: xs => pyRepr x :: pyReprList xs

/-- Elementwise `repr` of dict entries, as `key: value` pieces. -/
def pyReprEntries : List (PyObj × PyObj) → List String
  | [] => []
  | (k, v) :: rest => (pyRepr k ++ ": " ++ pyRepr v) :: pyReprEntries rest

end

/-- Model of the CPython builtin `str`: the text itself for a text string,
otherwise identical to `repr` on this value universe (containers, numbers,
byte-strings and functions have no separate `__str__`). -/
def pyStr (v : PyObj) : String :=
  match v with
  | .vStr s => s
  | w => pyRepr w

/-- Model of `_known_callable` (repr_utils.pyx lines 29-31): true for plain
functions and methods only.  Presence of render hooks does not change what
the underlying object is, hence the recursion through `vHooked`. -/
def knownCallable : PyObj → Bool
  | .vFunc _ _ _ => true
  | .vHooked _ _ inner => knownCallable inner
  | _ => false

/-- Model of `_simple` (repr_utils.pyx lines 34-36): true iff the value is
not an instance of list, set, tuple, dict or frozenset. -/
def simpleV : PyObj → Bool
  | .vList _ => false
  | .vSet _ => false
  | .vTuple _ => false
  | .vDict _ => false
  | .vFrozenset _ => false
  | .vHooked _ _ inner => simpleV inner
  | _ => true

/-- Python truthiness test used by the `not src` guard
(repr_utils.pyx line 280): empty containers and zero-like scalars are
falsy. -/
def isFalsy : PyObj → Bool
  | .vNone => true
  | .vBool b => !b
  | .vInt n => n == 0
  | .vStr s => s.isEmpty
  | .vBytes s => s.isEmpty
  | .vList xs => xs.isEmpty
  | .vTuple xs => xs.isEmpty
  | .vSet xs => xs.isEmpty
  | .vFrozenset xs => xs.isEmpty
  | .vDict es => es.isEmpty
  | .vFunc _ _ _ => false
  | .vHooked _ _ inner => isFalsy inner

/-- Model of the table `SPECIAL_SYMBOLS_ESCAPE` (repr_utils.pyx lines
38-47) applied to one character: backslash, newline, carriage return, form
feed, vertical tab, backspace, tab and bell map to their two-character
escapes, every other character is kept. -/
def escapeChar (c : Char) : String :=
  if c = '\\' then "\\\\"
  else if c = '\n' then "\\n"
  else if c = '\r' then "\\r"
  else if c = Char.ofNat 12 then "\\f"
  else if c = Char.ofNat 11 then "\\v"
  else if c = Char.ofNat 8 then "\\b"
  else if c = '\t' then "\\t"
  else if c = Char.ofNat 7 then "\\a"
  else String.singleton c

/-- Model of `PrettyRepr._strings_repr` (repr_utils.pyx lines 336-354):
prefix `b` for a byte-string (on its decoded text), `u` for a text string,
triple-quoted, with each character escaped through the table. -/
def stringsRepr (indent : Nat) (isBytes : Bool) (content : String) : String :=
  let pfx := if isBytes then "b" else "u"
  spaces indent ++ pfx ++ "\x27\x27\x27" ++ String.join (content.toList.map escapeChar)
    ++ "\x27\x27\x27"

/-- Model of `PrettyStr._strings_str` (repr_utils.pyx lines 501-512): the
decoded text emitted literally after the pad. -/
def stringsStr (indent : Nat) (content : String) : String :=
  spaces indent ++ content

/-- Model of `PrettyRepr._repr_simple` (repr_utils.pyx lines 356-378):
uniform `set(...)` notation for exact set instances, the custom string
renderer for text and byte-strings, `repr` fallback otherwise; the leading
pad collapses to zero width under `no_indent_start`. -/
def reprSimpleR (v : PyObj) (indent : Nat) (noIndentStart : Bool) : String :=
  let realIndent := if noIndentStart then 0 else indent
  match v with
  | .vSet xs => spaces realIndent ++ "set(" ++ joinSep " ," (pyReprList xs) ++ ")"
  | .vStr s => stringsRepr realIndent false s
  | .vBytes s => stringsRepr realIndent true s
  | w => spaces realIndent ++ pyRepr w

/-- Model of `PrettyStr._repr_simple` (repr_utils.pyx lines 514-536):
same shape with `str` in place of `repr` and literal text strings. -/
def reprSimpleS (v : PyObj) (indent : Nat) (noIndentStart : Bool) : String :=
  let realIndent := if noIndentStart then 0 else indent
  match v with
  | .vSet xs => spaces realIndent ++ "set(" ++ joinSep " ," (xs.map pyStr) ++ ")"
  | .vStr s => stringsStr realIndent s
  | .vBytes s => stringsStr realIndent s
  | w => spaces realIndent ++ pyStr w

/-- Dispatch of `_repr_simple` on the active mode. -/
def reprSimpleFor (fmt : PrettyFormat) (v : PyObj) (indent : Nat) (noIndentStart : Bool) :
    String :=
  match fmt.mode with
  | .reprStyle => reprSimpleR v indent noIndentStart
  | .strStyle => reprSimpleS v indent noIndentStart

/-- Model of `PrettyRepr._repr_iterable_item` (repr_utils.pyx lines
422-460): an optional leading newline, the pad, the class name, an opening
parenthesis, the bracket pair around the pre-formatted body, a closing
bracket line at the same pad. -/
def reprIterItemR (newline : Bool) (objType pfx : String) (indent : Nat)
    (result sfx : String) : String :=
  (if newline then "\n" else "") ++ spaces indent ++ objType ++ "(" ++ pfx ++ result
    ++ "\n" ++ spaces indent ++ sfx ++ ")"

/-- Model of `PrettyStr._repr_iterable_item` (repr_utils.pyx lines
580-612): same shape without the class name and the parentheses. -/
def reprIterItemS (newline : Bool) (_objType pfx : String) (indent : Nat)
    (result sfx : String) : String :=
  (if newline then "\n" else "") ++ spaces indent ++ pfx ++ result
    ++ "\n" ++ spaces indent ++ sfx

/-- Dispatch of `_repr_iterable_item` on the active mode. -/
def reprIterItemFor (fmt : PrettyFormat) (newline : Bool) (objType pfx : String)
    (indent : Nat) (result sfx : String) : String :=
  match fmt.mode with
  | .reprStyle => reprIterItemR newline objType pfx indent result sfx
  | .strStyle => reprIterItemS newline objType pfx indent result sfx

/-- Per-mode rendering of a dict key: `repr(key)` in `PrettyRepr`
(repr_utils.pyx line 482), `str(key)` in `PrettyStr` (line 633). -/
def keyRender (fmt : PrettyFormat) (k : PyObj) : String :=
  match fmt.mode with
  | .reprStyle => pyRepr k
  | .strStyle => pyStr k

/-- Pre-pass of `_repr_dict_items` (repr_utils.pyx lines 477 and 629):
width of the widest rendered key, 0 for an empty dict. -/
def maxKeyLen (fmt : PrettyFormat) : List (PyObj × PyObj) → Nat
  | [] => 0
  | p :: rest => max (keyRender fmt p.1).length (maxKeyLen fmt rest)

/-- Selection of the per-mode render hook, modelling the
`hasattr(src, self._magic_method_name)` probe (repr_utils.pyx line 273)
against `__pretty_repr__` (`PrettyRepr.__cinit__`, line 333) or
`__pretty_str__` (`PrettyStr.__cinit__`, line 498). -/
def modeHook (fmt : PrettyFormat)
    (hookRepr hookStr : Option (PrettyFormat → Nat → Bool → String)) :
    Option (PrettyFormat → Nat → Bool → String) :=
  match fmt.mode with
  | .reprStyle => hookRepr
  | .strStyle => hookStr

/-- Display of a function object inside `_repr_callable`
(`"{obj!r}"` in PrettyRepr, `"{obj!s}"` in PrettyStr; a function has no
separate `__str__`, so both formats agree).  The memory address CPython
appends is omitted uniformly. -/
def funcDisplay (fname : String) : String :=
  "<function " ++ fname ++ ">"

/-- Frame of `_repr_callable` around the rendered parameter block
(repr_utils.pyx lines 380-420 and 538-578): if the block is non-empty a
final newline and pad close it, the return annotation follows the closing
parenthesis as an arrow clause. -/
def reprCallableFrame (fname : String) (retAnnot : Option String) (indent : Nat)
    (paramsCore : String) : String :=
  let paramStr := if paramsCore.isEmpty then paramsCore
    else paramsCore ++ "\n" ++ spaces indent
  let retStr := match retAnnot with
    | some r => " -> " ++ r
    | none => ""
  "\n" ++ spaces indent ++ "<" ++ funcDisplay fname ++ " with interface (" ++ paramStr
    ++ ")" ++ retStr ++ ">"

mutual

/-- Model of `PrettyFormat.process_element` (repr_utils.pyx lines 251-301).

The Python control flow is:
1. if the value has the per-mode magic method, call it with
   `(self, indent=indent, no_indent_start=no_indent_start)` and return the
   result (lines 273-275); in the embedding a value with a hook for the
   other mode only behaves as its underlying value, hence the delegation;
2. if `_known_callable(src)`, return `_repr_callable(src, indent)`
   (lines 277-278) — in the embedding a function value is matched directly;
3. if `_simple(src) or indent >= max_indent or not src`, return
   `_repr_simple(src, indent, no_indent_start)` (lines 280-281);
4. otherwise classify the container: dict renders the joined
   `_repr_dict_items`, list/tuple/other pick brackets `[]`/`()`/`{}` and
   render `_repr_iterable_items`; the result is framed by
   `_repr_iterable_item(newline=no_indent_start, obj_type=type name, ...)`
   (lines 283-301).  The trailing catch-all inside the container match is
   unreachable: every non-container value already satisfied `_simple`. -/
def processElement (fmt : PrettyFormat) : PyObj → Nat → Bool → String
  | .vHooked hookRepr hookStr inner, indent, noIndentStart =>
    match modeHook fmt hookRepr hookStr with
    | some hk => hk fmt indent noIndentStart
    | none => processElement fmt inner indent noIndentStart
  | .vFunc fname ps retAnnot, indent, _ =>
    reprCallableFrame fname retAnnot indent (reprCallableParamStr fmt ps indent)
  | v, indent, noIndentStart =>
    if simpleV v || decide (fmt.maxIndent ≤ indent) || isFalsy v then
      reprSimpleFor fmt v indent noIndentStart
    else
      match v with
      | .vDict es =>
        reprIterItemFor fmt noIndentStart "dict" "\x7b" indent
          (String.join (reprDictRows fmt es indent (maxKeyLen fmt es))) "\x7d"
      | .vList xs =>
        reprIterItemFor fmt noIndentStart "list" "[" indent
          (reprIterableItems fmt xs indent) "]"
      | .vTuple xs =>
        reprIterItemFor fmt noIndentStart "tuple" "(" indent
          (reprIterableItems fmt xs indent) ")"
      | .vSet xs =>
        reprIterItemFor fmt noIndentStart "set" "\x7b" indent
          (reprIterableItems fmt xs indent) "\x7d"
      | .vFrozenset xs =>
        reprIterItemFor fmt noIndentStart "frozenset" "\x7b" indent
          (reprIterableItems fmt xs indent) "\x7d"
      | w => reprSimpleFor fmt w indent noIndentStart

/-- Model of `PrettyFormat._repr_iterable_items` (repr_utils.pyx lines
232-249): every element on its own line at the next indentation level,
followed by a comma. -/
def reprIterableItems (fmt : PrettyFormat) : List PyObj → Nat → String
  | [], _ => ""
  | e :: rest, indent =>
    "\n" ++ processElement fmt e (nextIndent fmt indent 1) false ++ ","
      ++ reprIterableItems fmt rest indent

/-- Model of `_repr_dict_items` (repr_utils.pyx lines 462-488 for
PrettyRepr, 614-639 for PrettyStr) after the `max_len` pre-pass: the rows
yielded by the generator, each carrying the padded key, the separator and
the value rendered at `next_indent(indent, multiplier=2)` with
`no_indent_start=True`.  The row body is repeated verbatim in `dictRow`
below, which is definitionally equal. -/
def reprDictRows (fmt : PrettyFormat) : List (PyObj × PyObj) → Nat → Nat → List String
  | [], _, _ => []
  | (k, v) :: rest, indent, ml =>
    ("\n" ++ spaces (nextIndent fmt indent 1) ++ leftJust (keyRender fmt k) ml ++ ": "
        ++ processElement fmt v (nextIndent fmt indent 2) true ++ ",")
      :: reprDictRows fmt rest indent ml

/-- Parameter block of `_repr_callable` (repr_utils.pyx lines 399-407 and
557-565): every parameter of the signature becomes a line holding the
`ReprParameter` display name (a `*`/`**` marker is prepended for the
variadic kinds, repr_utils.pyx lines 74-79), the annotation clause when the
annotation is present, and the value clause `=rendered value` when the
`ReprParameter` value (bound value, else declared default, repr_utils.pyx
line 82; absent for a plain function without default) is present — the
value renders through `process_element` at the current indent with
`no_indent_start=True`. -/
def reprCallableParamStr (fmt : PrettyFormat) :
    List (String × PKind × Option String × Option PyObj) → Nat → String
  | [], _ => ""
  | (nm, kd, an, df) :: rest, indent =>
    "\n" ++ spaces (nextIndent fmt indent 1)
      ++ (match kd with
          | .varPositional => "*" ++ nm
          | .varKeyword => "**" ++ nm
          | _ => nm)
      ++ (match an with
          | some a => ": " ++ a
          | none => "")
      ++ (match df with
          | some v => "=" ++ processElement fmt v indent true
          | none => "")
      ++ "," ++ reprCallableParamStr fmt rest indent

end

/-- Model of `_repr_callable` (repr_utils.pyx lines 380-420, 538-578),
assembled from the parameter block and the frame; `process_element` on a
function value is definitionally this. -/
def reprCallable (fmt : PrettyFormat) (fname : String)
    (ps : List (String × PKind × Option String × Option PyObj))
    (retAnnot : Option String) (indent : Nat) : String :=
  reprCallableFrame fname retAnnot indent (reprCallableParamStr fmt ps indent)

/-- Row builder of `_repr_dict_items` for one key/value pair, with the
pre-computed key column width `ml`; `reprDictRows` produces exactly these
rows. -/
def dictRow (fmt : PrettyFormat) (ml indent : Nat) (p : PyObj × PyObj) : String :=
  "\n" ++ spaces (nextIndent fmt indent 1) ++ leftJust (keyRender fmt p.1) ml ++ ": "
    ++ processElement fmt p.2 (nextIndent fmt indent 2) true ++ ","

/-- Model of the module-level helper `pretty_repr` (repr_utils.pyx lines
642-666): a fresh `PrettyRepr` applied to the value. -/
def prettyRepr (src : PyObj) (indent : Nat) (noIndentStart : Bool)
    (maxIndent indentStep : Nat) : String :=
  processElement (PrettyRepr maxIndent indentStep) src indent noIndentStart

/-- Model of the module-level helper `pretty_str` (repr_utils.pyx lines
669-692): a fresh `PrettyStr` applied to the value. -/
def prettyStr (src : PyObj) (indent : Nat) (noIndentStart : Bool)
    (maxIndent indentStep : Nat) : String :=
  processElement (PrettyStr maxIndent indentStep) src indent noIndentStart

/-- Values whose top-level constructor is neither a function nor a value
with render hooks: exactly those on which `process_element` reaches the
`_simple or indent >= max_indent or not src` guard. -/
def plainTop : PyObj → Bool
  | .vFunc _ _ _ => false
  | .vHooked _ _ _ => false
  | _ => true

mutual

/-- Values built from scalars and the five recognized containers only (no
functions, no render hooks anywhere): the self-nested structures of the
termination claim. -/
def pureData : PyObj → Bool
  | .vList xs => pureDataList xs
  | .vTuple xs => pureDataList xs
  | .vSet xs => pureDataList xs
  | .vFrozenset xs => pureDataList xs
  | .vDict es => pureDataEntries es
  | .vFunc _ _ _ => false
  | .vHooked _ _ _ => false
  | _ => true

/-- List version of `pureData`. -/
def pureDataList : List PyObj → Bool
  | [] => true
  | x :: xs => pureData x && pureDataList xs

/-- Entry version of `pureData`. -/
def pureDataEntries : List (PyObj × PyObj) → Bool
  | [] => true
  | (k, v) :: rest => pureData k && pureData v && pureDataEntries rest

end

mutual

/-- Depth of the `process_element` call tree: 1 for a call that performs no
nested `process_element` call, and one more than the deepest nested call
otherwise.  The case structure mirrors `processElement`: a hook invocation
ends the recursion (the hook is external code), a function recurses into
its parameter values at the same indent, the guard ends the recursion, and
a container descends into its children at the stepped indent. -/
def peDepth (fmt : PrettyFormat) : PyObj → Nat → Nat
  | .vHooked hookRepr hookStr inner, indent =>
    match modeHook fmt hookRepr hookStr with
    | some _ => 1
    | none => 1 + peDepth fmt inner indent
  | .vFunc _ ps _, indent => 1 + peDepthParams fmt ps indent
  | v, indent =>
    if simpleV v || decide (fmt.maxIndent ≤ indent) || isFalsy v then 1
    else
      match v with
      | .vDict es => 1 + peDepthEntries fmt es indent
      | .vList xs => 1 + peDepthList fmt xs (nextIndent fmt indent 1)
      | .vTuple xs => 1 + peDepthList fmt xs (nextIndent fmt indent 1)
      | .vSet xs => 1 + peDepthList fmt xs (nextIndent fmt indent 1)
      | .vFrozenset xs => 1 + peDepthList fmt xs (nextIndent fmt indent 1)
      | _ => 1

/-- List version of `peDepth` (elements already at the stepped indent). -/
def peDepthList (fmt : PrettyFormat) : List PyObj → Nat → Nat
  | [], _ => 0
  | x :: xs, indent => max (peDepth fmt x indent) (peDepthList fmt xs indent)

/-- Entry version of `peDepth`: dict values render at
`next_indent(indent, multiplier=2)`. -/
def peDepthEntries (fmt : PrettyFormat) : List (PyObj × PyObj) → Nat → Nat
  | [], _ => 0
  | (_, v) :: rest, indent =>
    max (peDepth fmt v (nextIndent fmt indent 2)) (peDepthEntries fmt rest indent)

/-- Parameter-default version of `peDepth` (defaults render at the same
indent). -/
def peDepthParams (fmt : PrettyFormat) :
    List (String × PKind × Option String × Option PyObj) → Nat → Nat
  | [], _ => 0
  | (_, _, _, df) :: rest, indent =>
    max (match df with
         | some v => peDepth fmt v indent
         | none => 0)
      (peDepthParams fmt rest indent)

end

/-- Display of `repr(inspect.Parameter.empty)`, produced when the empty
sentinel itself reaches a `repr`-style rendering. -/
def emptyRepr : String :=
  "<class \x27inspect._empty\x27>"

/-- Model of `BoundParameter` (log_wrap.pyx lines 52-147, first variant):
a signature parameter together with the bound value.  `annot` stores the
display text of the annotation (the output of `inspect.formatannotation`);
`pdefault` and `pvalue` use `none` for the `inspect.Parameter.empty`
sentinel. -/
structure BoundParam where
  pname : String
  pkind : PKind
  annot : Option String
  pdefault : Option PyObj
  pvalue : Option PyObj

/-- Model of `BoundParameter.__init__` (log_wrap.pyx lines 65-74): without
a value and without a default, only the variadic kinds are accepted
(`_value` stays empty for them); otherwise the default fills in. -/
def mkBoundParameter (pname : String) (pkind : PKind) (annot : Option String)
    (pdefault : Option PyObj) (value : Option PyObj) : Except String BoundParam :=
  match value with
  | none =>
    if pdefault.isNone && pkind ≠ PKind.varPositional && pkind ≠ PKind.varKeyword then
      Except.error "Value is not set and no default value"
    else
      Except.ok ⟨pname, pkind, annot, pdefault, pdefault⟩
  | some v => Except.ok ⟨pname, pkind, annot, pdefault, some v⟩

/-- Effective value substitution shared by `BoundParameter.__str__`
(log_wrap.pyx lines 126-131) and `LogWrap._get_func_args_repr` (lines
276-280): an empty value of a VAR_POSITIONAL parameter becomes the empty
tuple, an empty value of a VAR_KEYWORD parameter becomes the empty dict,
any other empty value stays empty. -/
def bpEffectiveValue (p : BoundParam) : Option PyObj :=
  match p.pvalue with
  | some v => some v
  | none =>
    match p.pkind with
    | .varPositional => some (PyObj.vTuple [])
    | .varKeyword => some (PyObj.vDict [])
    | _ => none

/-- Model of `BoundParameter.__str__` (log_wrap.pyx lines 112-143):
`name[: annotation]=value!r[  # default!r]` with the name wrapped in angle
brackets for POSITIONAL_ONLY and a `*`/`**` marker prepended for the
variadic kinds. -/
def boundParameterStr (p : BoundParam) : String :=
  let base := match p.pkind with
    | .positionalOnly => "<" ++ p.pname ++ ">"
    | _ => p.pname
  let withAnnot := base ++ (match p.annot with
    | some a => ": " ++ a
    | none => "")
  let valTxt := match bpEffectiveValue p with
    | some v => pyRepr v
    | none => emptyRepr
  let s1 := withAnnot ++ "=" ++ valTxt
  let s2 := s1 ++ (match p.pdefault with
    | some d => "  # " ++ pyRepr d
    | none => "")
  match p.pkind with
  | .varPositional => "*" ++ s2
  | .varKeyword => "**" ++ s2
  | _ => s2

/-- Display of `str` on a parameter kind of the `inspect` module. -/
def kindStr : PKind → String
  | .positionalOnly => "POSITIONAL_ONLY"
  | .positionalOrKeyword => "POSITIONAL_OR_KEYWORD"
  | .varPositional => "VAR_POSITIONAL"
  | .keywordOnly => "KEYWORD_ONLY"
  | .varKeyword => "VAR_KEYWORD"

/-- Configuration of the `LogWrap` decorator (log_wrap.pyx lines 163-204).
Exception types are identified by class name in the embedding (the Python
source matches them with `isinstance`, whose subclass dimension is not
needed by the claims). -/
structure LogWrapCfg where
  logLevel : Nat
  excLevel : Nat
  maxIndent : Nat
  blacklistedNames : List String
  blacklistedExceptions : List String
  logCallArgs : Bool
  logCallArgsOnExc : Bool
  logTraceback : Bool
  logResultObj : Bool

/-- Parameter loop of `LogWrap._get_func_args_repr` (log_wrap.pyx lines
262-295) with the base-class identity pre/post processing hooks inlined
(lines 243-251 return the argument unchanged): blacklisted names are
skipped, an empty variadic value is replaced by `()`/`{}`, the value
renders through `pretty_repr(value, indent=indent + 4, no_indent_start=True,
max_indent=self.max_indent)` with the module-level `indent = 4`
(log_wrap.pyx line 34), a kind-change emits the comment line
`"\n{spc:<{indent}}# {kind!s}:"`, and each row is
`"\n{spc:<{indent}}{key!r}={val},{annotation}"` (log_wrap.pyx lines
35-36). -/
def funcArgsReprGo (cfg : LogWrapCfg) : List BoundParam → Option PKind → String
  | [], _ => ""
  | p :: rest, lastKind =>
    if p.pname ∈ cfg.blacklistedNames then funcArgsReprGo cfg rest lastKind
    else
      let val := match bpEffectiveValue p with
        | some v => processElement (PrettyRepr cfg.maxIndent 4) v 8 true
        | none => emptyRepr
      let cmt := if lastKind ≠ some p.pkind then "\n    # " ++ kindStr p.pkind ++ ":" else ""
      let annotTxt := match p.annot with
        | some a => "  # type: " ++ a
        | none => ""
      cmt ++ "\n    " ++ pyReprStr p.pname ++ "=" ++ val ++ "," ++ annotTxt
        ++ funcArgsReprGo cfg rest (some p.pkind)

/-- Model of `LogWrap._get_func_args_repr` (log_wrap.pyx lines 253-298):
empty when argument logging is disabled in both positions, otherwise the
joined parameter rows with a final newline when non-empty. -/
def getFuncArgsRepr (cfg : LogWrapCfg) (params : List BoundParam) : String :=
  if !(cfg.logCallArgs || cfg.logCallArgsOnExc) then ""
  else
    let s := funcArgsReprGo cfg params none
    if s.isEmpty then s else s ++ "\n"

/-- Model of `ReprParameter` (repr_utils.pyx lines 50-96): display name
(with the variadic marker applied), kind, annotation display and the
stored value (bound value, else declared default, else empty). -/
structure ReprParam where
  rname : String
  rkind : PKind
  rannot : Option String
  rvalue : Option PyObj

/-- Model of `ReprParameter.__hash__` (repr_utils.pyx lines 84-91): always
raises `TypeError("unhashable type: 'ReprParameter'")`.  A raising hash is
embedded as the error branch of `Except`. -/
def reprParameterHash (_p : ReprParam) : Except String Nat :=
  Except.error "unhashable type: \x27ReprParameter\x27"

/-- Model of `BoundParameter.__hash__` in the standalone variant
(log_wrap.pyx lines 106-110): always raises
`TypeError("unhashable type: 'BoundParameter'")`. -/
def boundParameterHash (_p : BoundParam) : Except String Nat :=
  Except.error "unhashable type: \x27BoundParameter\x27"

mutual

/-- Hashability of a value under the CPython builtin `hash`: lists, sets
and dicts are unhashable, tuples and frozensets are hashable when their
elements are. -/
def pyHashable : PyObj → Bool
  | .vList _ => false
  | .vSet _ => false
  | .vDict _ => false
  | .vTuple xs => pyHashableList xs
  | .vFrozenset xs => pyHashableList xs
  | _ => true

/-- List version of `pyHashable`. -/
def pyHashableList : List PyObj → Bool
  | [] => true
  | x :: xs => pyHashable x && pyHashableList xs

end

/-- Model of `inspect.Parameter.__hash__` (CPython standard library):
`hash((self.name, self.kind, self.annotation, self.default))` — it
succeeds whenever the default is hashable (the name, the kind and the
annotation display always are).  The numeric hash value is opaque in
CPython; the model returns a stand-in number, which no statement below
depends on. -/
def inspectParameterHash (p : BoundParam) : Except String Nat :=
  if (match p.pdefault with
      | some d => pyHashable d
      | none => true) then
    Except.ok p.pname.length
  else
    Except.error "unhashable type"

/-- Hash of the `BoundParameter` variant that subclasses
`inspect.Parameter` (log_wrap.pyx lines 982-1064): the class body defines
no `__hash__` (and no `__eq__`), so attribute lookup falls through to the
inherited `inspect.Parameter.__hash__`. -/
def boundParameterSubclassHash (p : BoundParam) : Except String Nat :=
  inspectParameterHash p

/-- Exception identity: class name and message. -/
structure PyExc where
  excType : String
  excMsg : String

/-- Emitted log record: level and message. -/
structure LogRecord where
  level : Nat
  message : String

/-- Outcome of invoking the wrapped callable. -/
inductive CallResult where
  | finished (r : PyObj)
  | raised (e : PyExc)

/-- Model of `LogWrap._make_calling_record` (log_wrap.pyx lines 317-324):
`"{method}: \n{name!r}({arguments})"` at `log_level`, with the arguments
blanked when `log_call_args` is off. -/
def makeCallingRecordV1 (cfg : LogWrapCfg) (fname argsRepr method : String) : LogRecord :=
  ⟨cfg.logLevel,
    method ++ ": \n" ++ pyReprStr fname ++ "("
      ++ (if cfg.logCallArgs then argsRepr else "") ++ ")"⟩

/-- Model of `LogWrap._make_done_record` (log_wrap.pyx lines 300-315):
`"Done: {name!r}"` at `log_level`, with the result rendered through
`pretty_repr` when `log_result_obj` is on. -/
def makeDoneRecordV1 (cfg : LogWrapCfg) (fname : String) (result : PyObj) : LogRecord :=
  ⟨cfg.logLevel,
    "Done: " ++ pyReprStr fname
      ++ (if cfg.logResultObj then
            " with result:\n" ++ processElement (PrettyRepr cfg.maxIndent 4) result 0 false
          else "")⟩

/-- Model of `LogWrap._make_exc_record` (log_wrap.pyx lines 326-344):
`"Failed: \n{name!r}({arguments})\n{tb_text}"` at `exc_level`; the
traceback text assembled by the `traceback` module is supplied externally
as `tbText` and blanked when `log_traceback` is off. -/
def makeExcRecordV1 (cfg : LogWrapCfg) (fname argsRepr tbText : String) : LogRecord :=
  ⟨cfg.excLevel,
    "Failed: \n" ++ pyReprStr fname ++ "("
      ++ (if cfg.logCallArgsOnExc then argsRepr else "") ++ ")\n"
      ++ (if cfg.logTraceback then tbText else "")⟩

/-- Model of the synchronous `wrapper` closure of
`LogWrap._get_function_wrapper` (log_wrap.pyx lines 366-379): the calling
record is emitted, the callable runs; on success the done record follows
and the result is returned; on an exception whose type is blacklisted the
exception is re-raised with no further record; on any other exception the
exception record is emitted and the exception is re-raised.  The function
returns the emitted records and the propagated outcome. -/
def wrapperV1 (cfg : LogWrapCfg) (fname argsRepr tbText : String) :
    CallResult → List LogRecord × CallResult
  | .finished r =>
    ([makeCallingRecordV1 cfg fname argsRepr "Calling", makeDoneRecordV1 cfg fname r],
      .finished r)
  | .raised e =>
    if cfg.blacklistedExceptions.contains e.excType then
      ([makeCallingRecordV1 cfg fname argsRepr "Calling"], .raised e)
    else
      ([makeCallingRecordV1 cfg fname argsRepr "Calling",
        makeExcRecordV1 cfg fname argsRepr tbText], .raised e)

/-- Model of `_make_calling_record` in the module-logger variant
(log_wrap.pyx lines 1350-1365): same shape with a plain `{name}`. -/
def makeCallingRecordV3 (cfg : LogWrapCfg) (fname argsRepr method : String) : LogRecord :=
  ⟨cfg.logLevel,
    method ++ ": \n" ++ fname ++ "("
      ++ (if cfg.logCallArgs then argsRepr else "") ++ ")"⟩

/-- Model of `_make_done_record` in the module-logger variant
(log_wrap.pyx lines 1324-1348). -/
def makeDoneRecordV3 (cfg : LogWrapCfg) (fname : String) (result : PyObj) : LogRecord :=
  ⟨cfg.logLevel,
    "Done: " ++ pyReprStr fname
      ++ (if cfg.logResultObj then
            " with result:\n" ++ processElement (PrettyRepr cfg.maxIndent 4) result 0 false
          else "")⟩

/-- Model of `_make_exc_record` in the module-logger variant (log_wrap.pyx
lines 1367-1398): the record is always emitted at `exc_level`, but the
body degrades to the bare exception class name when the traceback is
disabled or the exception type is blacklisted; otherwise it carries the
detailed traceback text (supplied externally as `detailedTb`). -/
def makeExcRecordV3 (cfg : LogWrapCfg) (fname argsRepr : String) (e : PyExc)
    (detailedTb : String) : LogRecord :=
  let tbText := if cfg.logTraceback && !(cfg.blacklistedExceptions.contains e.excType)
    then detailedTb else e.excType
  ⟨cfg.excLevel,
    "Failed: \n" ++ fname ++ "("
      ++ (if cfg.logCallArgsOnExc then argsRepr else "") ++ ")\n" ++ tbText⟩

/-- Model of the synchronous `wrapper` closure in the module-logger
variant (log_wrap.pyx lines 1431-1449): every exception leads to an
exception record (whose detail depends on the blacklist inside
`_make_exc_record`) and is then re-raised. -/
def wrapperV3 (cfg : LogWrapCfg) (fname argsRepr detailedTb : String) :
    CallResult → List LogRecord × CallResult
  | .finished r =>
    ([makeCallingRecordV3 cfg fname argsRepr "Calling", makeDoneRecordV3 cfg fname r],
      .finished r)
  | .raised e =>
    ([makeCallingRecordV3 cfg fname argsRepr "Calling",
      makeExcRecordV3 cfg fname argsRepr e detailedTb], .raised e)

theorem spaces_length (n : Nat) : (spaces n).length = n := by
  simp [spaces]

theorem leftJust_length {s : String} {w : Nat} (h : s.length ≤ w) :
    (leftJust s w).length = w := by
  simp only [leftJust, String.length_append, spaces_length]
  omega

theorem keyRender_le_maxKeyLen (fmt : PrettyFormat) :
    ∀ (es : List (PyObj × PyObj)) (p : PyObj × PyObj), p ∈ es →
      (keyRender fmt p.1).length ≤ maxKeyLen fmt es
  | q :: rest, p, hp => by
    rcases List.mem_cons.mp hp with h | h
    · subst h
      simp only [maxKeyLen]
      exact Nat.le_max_left _ _
    · exact Nat.le_trans (keyRender_le_maxKeyLen fmt rest p h) (Nat.le_max_right _ _)

theorem reprDictRows_eq_map (fmt : PrettyFormat) (ind ml : Nat) :
    ∀ es : List (PyObj × PyObj), reprDictRows fmt es ind ml = es.map (dictRow fmt ml ind)
  | [] => rfl
  | (k, v) :: rest => by
    simp only [reprDictRows, List.map_cons]
    rw [reprDictRows_eq_map fmt ind ml rest]
    rfl

theorem reprIterItemFor_newline (fmt : PrettyFormat) (t p : String) (ind : Nat)
    (r s : String) :
    reprIterItemFor fmt true t p ind r s = "\n" ++ reprIterItemFor fmt false t p ind r s := by
  obtain ⟨m, M, S⟩ := fmt
  cases m <;>
    simp [reprIterItemFor, reprIterItemR, reprIterItemS, String.append_assoc]

mutual

theorem peDepth_le (fmt : PrettyFormat) :
    ∀ (v : PyObj) (ind k : Nat), pureData v = true →
      fmt.maxIndent ≤ ind + k * fmt.indentStep → peDepth fmt v ind ≤ k + 1
  | .vNone, _, k, _, _ => by simp [peDepth, simpleV]
  | .vBool b, _, k, _, _ => by simp [peDepth, simpleV]
  | .vInt n, _, k, _, _ => by simp [peDepth, simpleV]
  | .vStr s, _, k, _, _ => by simp [peDepth, simpleV]
  | .vBytes s, _, k, _, _ => by simp [peDepth, simpleV]
  | .vFunc a b c, _, _, hp, _ => by simp [pureData] at hp
  | .vHooked a b c, _, _, hp, _ => by simp [pureData] at hp
  | .vList xs, ind, k, hp, hk => by
    simp only [peDepth]
    split
    · omega
    · rename_i hguard
      have hlt : ind < fmt.maxIndent := by
        by_contra hge
        rw [Nat.not_lt] at hge
        simp [hge] at hguard
      have hk1 : 1 ≤ k := by
        rcases k with _ | k2
        · simp at hk; omega
        · omega
      have harith : fmt.maxIndent ≤ nextIndent fmt ind 1 + (k - 1) * fmt.indentStep := by
        have hmul : (k - 1) * fmt.indentStep = k * fmt.indentStep - fmt.indentStep :=
          Nat.sub_one_mul k fmt.indentStep
        have hS : fmt.indentStep ≤ k * fmt.indentStep :=
          Nat.le_mul_of_pos_left _ (by omega)
        simp only [nextIndent]
        omega
      have hrec := peDepthList_le fmt xs (nextIndent fmt ind 1) (k - 1)
        (by simpa [pureData] using hp) harith
      omega
  | .vTuple xs, ind, k, hp, hk => by
    simp only [peDepth]
    split
    · omega
    · rename_i hguard
      have hlt : ind < fmt.maxIndent := by
        by_contra hge
        rw [Nat.not_lt] at hge
        simp [hge] at hguard
      have hk1 : 1 ≤ k := by
        rcases k with _ | k2
        · simp at hk; omega
        · omega
      have harith : fmt.maxIndent ≤ nextIndent fmt ind 1 + (k - 1) * fmt.indentStep := by
        have hmul : (k - 1) * fmt.indentStep = k * fmt.indentStep - fmt.indentStep :=
          Nat.sub_one_mul k fmt.indentStep
        have hS : fmt.indentStep ≤ k * fmt.indentStep :=
          Nat.le_mul_of_pos_left _ (by omega)
        simp only [nextIndent]
        omega
      have hrec := peDepthList_le fmt xs (nextIndent fmt ind 1) (k - 1)
        (by simpa [pureData] using hp) harith
      omega
  | .vSet xs, ind, k, hp, hk => by
    simp only [peDepth]
    split
    · omega
    · rename_i hguard
      have hlt : ind < fmt.maxIndent := by
        by_contra hge
        rw [Nat.not_lt] at hge
        simp [hge] at hguard
      have hk1 : 1 ≤ k := by
        rcases k with _ | k2
        · simp at hk; omega
        · omega
      have harith : fmt.maxIndent ≤ nextIndent fmt ind 1 + (k - 1) * fmt.indentStep := by
        have hmul : (k - 1) * fmt.indentStep = k * fmt.indentStep - fmt.indentStep :=
          Nat.sub_one_mul k fmt.indentStep
        have hS : fmt.indentStep ≤ k * fmt.indentStep :=
          Nat.le_mul_of_pos_left _ (by omega)
        simp only [nextIndent]
        omega
      have hrec := peDepthList_le fmt xs (nextIndent fmt ind 1) (k - 1)
        (by simpa [pureData] using hp) harith
      omega
  | .vFrozenset xs, ind, k, hp, hk => by
    simp only [peDepth]
    split
    · omega
    · rename_i hguard
      have hlt : ind < fmt.maxIndent := by
        by_contra hge
        rw [Nat.not_lt] at hge
        simp [hge] at hguard
      have hk1 : 1 ≤ k := by
        rcases k with _ | k2
        · simp at hk; omega
        · omega
      have harith : fmt.maxIndent ≤ nextIndent fmt ind 1 + (k - 1) * fmt.indentStep := by
        have hmul : (k - 1) * fmt.indentStep = k * fmt.indentStep - fmt.indentStep :=
          Nat.sub_one_mul k fmt.indentStep
        have hS : fmt.indentStep ≤ k * fmt.indentStep :=
          Nat.le_mul_of_pos_left _ (by omega)
        simp only [nextIndent]
        omega
      have hrec := peDepthList_le fmt xs (nextIndent fmt ind 1) (k - 1)
        (by simpa [pureData] using hp) harith
      omega
  | .vDict es, ind, k, hp, hk => by
    simp only [peDepth]
    split
    · omega
    · rename_i hguard
      have hlt : ind < fmt.maxIndent := by
        by_contra hge
        rw [Nat.not_lt] at hge
        simp [hge] at hguard
      have hk1 : 1 ≤ k := by
        rcases k with _ | k2
        · simp at hk; omega
        · omega
      have hrec := peDepthEntries_le fmt es ind k
        (by simpa [pureData] using hp) hk1 hk
      omega

theorem peDepthList_le (fmt : PrettyFormat) :
    ∀ (xs : List PyObj) (ind k : Nat), pureDataList xs = true →
      fmt.maxIndent ≤ ind + k * fmt.indentStep → peDepthList fmt xs ind ≤ k + 1
  | [], _, _, _, _ => by simp [peDepthList]
  | x :: xs, ind, k, hp, hk => by
    simp only [pureDataList, Bool.and_eq_true] at hp
    have h1 := peDepth_le fmt x ind k hp.1 hk
    have h2 := peDepthList_le fmt xs ind k hp.2 hk
    simp only [peDepthList]
    omega

theorem peDepthEntries_le (fmt : PrettyFormat) :
    ∀ (es : List (PyObj × PyObj)) (ind k : Nat), pureDataEntries es = true → 1 ≤ k →
      fmt.maxIndent ≤ ind + k * fmt.indentStep → peDepthEntries fmt es ind ≤ k
  | [], _, _, _, _, _ => by simp [peDepthEntries]
  | (a, b) :: rest, ind, k, hp, hk1, hk => by
    simp only [pureDataEntries, Bool.and_eq_true] at hp
    have harith : fmt.maxIndent ≤ nextIndent fmt ind 2 + (k - 1) * fmt.indentStep := by
      have hmul : (k - 1) * fmt.indentStep = k * fmt.indentStep - fmt.indentStep :=
        Nat.sub_one_mul k fmt.indentStep
      have hS : fmt.indentStep ≤ k * fmt.indentStep :=
        Nat.le_mul_of_pos_left _ (by omega)
      simp only [nextIndent]
      omega
    have h1 := peDepth_le fmt b (nextIndent fmt ind 2) (k - 1) hp.1.2 harith
    have h2 := peDepthEntries_le fmt rest ind k hp.2 hk1 hk
    simp only [peDepthEntries]
    omega

end

/-- Hook used by the C1 counterexample: a render hook returning a fixed
text. -/
def hookCustom : PrettyFormat → Nat → Bool → String :=
  fun _ _ _ => "CUSTOM"

/-- Value used by the C1 counterexample: an integer carrying a
`__pretty_repr__` hook. -/
def hookedSeven : PyObj :=
  PyObj.vHooked (some hookCustom) none (PyObj.vInt 7)

/-- C1, counterexample to the quantifier "for every value": at
`indent = max_indent` a value exposing the active-mode render hook is still
rendered through the hook, not through the simple renderer, because the
hook probe precedes the `indent >= max_indent` guard in
`process_element`. -/
theorem c1_counterexample_hook_at_max_indent :
    processElement (PrettyRepr 20 4) hookedSeven 20 false = "CUSTOM" ∧
    reprSimpleR hookedSeven 20 false = spaces 20 ++ "7" ∧
    processElement (PrettyRepr 20 4) hookedSeven 20 false
      ≠ reprSimpleR hookedSeven 20 false := by
  refine ⟨rfl, rfl, ?_⟩
  decide

/-- C1 (amended): for every value whose top-level constructor is neither a
callable nor a hook carrier, `process_element` at `indent >= max_indent`
returns exactly `_repr_simple` and performs no nested `process_element`
call (`peDepth = 1`); and for every hook-free, callable-free value the
depth of the `process_element` call tree from indent `ind` is at most
`k + 1` whenever `max_indent <= ind + k * indent_step` — so with
`indent_step > 0` the structural recursion is bounded regardless of how
deeply the input is nested. -/
theorem c1_max_indent_guard :
    (∀ (fmt : PrettyFormat) (v : PyObj) (ind : Nat) (nis : Bool),
        plainTop v = true → fmt.maxIndent ≤ ind →
        processElement fmt v ind nis = reprSimpleFor fmt v ind nis) ∧
    (∀ (fmt : PrettyFormat) (v : PyObj) (ind : Nat),
        plainTop v = true → fmt.maxIndent ≤ ind →
        peDepth fmt v ind = 1) ∧
    (∀ (fmt : PrettyFormat) (v : PyObj) (ind k : Nat),
        pureData v = true → fmt.maxIndent ≤ ind + k * fmt.indentStep →
        peDepth fmt v ind ≤ k + 1) := by
  refine ⟨?_, ?_, fun fmt v ind k hp hk => peDepth_le fmt v ind k hp hk⟩
  · intro fmt v ind nis hp hind
    cases v with
    | vNone => simp [processElement, simpleV, hind]
    | vBool b => simp [processElement, simpleV, hind]
    | vInt n => simp [processElement, simpleV, hind]
    | vStr s => simp [processElement, simpleV, hind]
    | vBytes s => simp [processElement, simpleV, hind]
    | vList xs => simp [processElement, hind]
    | vTuple xs => simp [processElement, hind]
    | vSet xs => simp [processElement, hind]
    | vFrozenset xs => simp [processElement, hind]
    | vDict es => simp [processElement, hind]
    | vFunc a b c => simp [plainTop] at hp
    | vHooked a b c => simp [plainTop] at hp
  · intro fmt v ind hp hind
    cases v with
    | vNone => simp [peDepth, simpleV, hind]
    | vBool b => simp [peDepth, simpleV, hind]
    | vInt n => simp [peDepth, simpleV, hind]
    | vStr s => simp [peDepth, simpleV, hind]
    | vBytes s => simp [peDepth, simpleV, hind]
    | vList xs => simp [peDepth, hind]
    | vTuple xs => simp [peDepth, hind]
    | vSet xs => simp [peDepth, hind]
    | vFrozenset xs => simp [peDepth, hind]
    | vDict es => simp [peDepth, hind]
    | vFunc a b c => simp [plainTop] at hp
    | vHooked a b c => simp [plainTop] at hp

/-- Witness for `c1_max_indent_guard` at concrete inputs: a non-empty list
at the boundary indent renders simply with depth 1, and a triple-nested
list is rendered with call depth at most 7 for `k = 6`. -/
theorem c1_max_indent_guard_witness :
    (plainTop (PyObj.vList [PyObj.vInt 1]) = true ∧ (PrettyRepr 20 4).maxIndent ≤ 20 ∧
      processElement (PrettyRepr 20 4) (PyObj.vList [PyObj.vInt 1]) 20 false
        = reprSimpleFor (PrettyRepr 20 4) (PyObj.vList [PyObj.vInt 1]) 20 false) ∧
    peDepth (PrettyRepr 20 4) (PyObj.vList [PyObj.vInt 1]) 20 = 1 ∧
    (pureData (PyObj.vList [PyObj.vList [PyObj.vList [PyObj.vInt 0]]]) = true ∧
      (PrettyRepr 20 4).maxIndent ≤ 0 + 6 * (PrettyRepr 20 4).indentStep ∧
      peDepth (PrettyRepr 20 4) (PyObj.vList [PyObj.vList [PyObj.vList [PyObj.vInt 0]]]) 0
        ≤ 6 + 1) :=
  ⟨⟨by decide, by decide,
      c1_max_indent_guard.1 (PrettyRepr 20 4) (PyObj.vList [PyObj.vInt 1]) 20 false
        (by decide) (by decide)⟩,
    c1_max_indent_guard.2.1 (PrettyRepr 20 4) (PyObj.vList [PyObj.vInt 1]) 20
      (by decide) (by decide),
    ⟨by decide, by decide,
      c1_max_indent_guard.2.2 (PrettyRepr 20 4)
        (PyObj.vList [PyObj.vList [PyObj.vList [PyObj.vInt 0]]]) 0 6
        (by decide) (by decide)⟩⟩

/-- C2: a value exposing the active-mode render hook has the hook invoked
with `(formatter, indent, no_indent_start)` and its result returned
verbatim, before callable detection, before the scalar guard and before
container classification — the underlying value is universally quantified,
so it may be any container, callable or scalar. -/
theorem c2_override_hook_short_circuits :
    ∀ (M S : Nat) (hkR hkS : Option (PrettyFormat → Nat → Bool → String))
      (hk : PrettyFormat → Nat → Bool → String) (inner : PyObj) (ind : Nat) (nis : Bool),
      processElement (PrettyRepr M S) (PyObj.vHooked (some hk) hkS inner) ind nis
        = hk (PrettyRepr M S) ind nis ∧
      processElement (PrettyStr M S) (PyObj.vHooked hkR (some hk) inner) ind nis
        = hk (PrettyStr M S) ind nis :=
  fun _ _ _ _ _ _ _ _ => ⟨rfl, rfl⟩

/-- Set value of the C3 claim. -/
def setOneTwoThree : PyObj :=
  PyObj.vSet [PyObj.vInt 1, PyObj.vInt 2, PyObj.vInt 3]

/-- C3, counterexample: at default parameters (indent 0, max_indent 20) a
non-empty set does not reach `_repr_simple` — the str-style formatter
renders `{1, 2, 3}` as a bare brace block with no `set(` prefix and no `)`
suffix. -/
theorem c3_counterexample_str_mode_set :
    processElement (PrettyStr 20 4) setOneTwoThree 0 false
      = "\x7b\n    1,\n    2,\n    3,\n\x7d" ∧
    strStarts (processElement (PrettyStr 20 4) setOneTwoThree 0 false) "set(" = false ∧
    strEnds (processElement (PrettyStr 20 4) setOneTwoThree 0 false) ")" = false := by
  decide

/-- C3 (amended): at default parameters the repr-style formatter renders
`{1, 2, 3}` through the container branch as `set({` one element per line
`})` — so its output does carry the `set(` prefix and the `)` suffix —
while the str-style formatter renders a bare `{...}` block; the uniform
`set( joined elements )` notation of `_repr_simple` is produced by both
modes exactly when a set reaches the simple renderer: when it is empty or
when the indent has reached max_indent. -/
theorem c3_set_notation :
    processElement (PrettyRepr 20 4) setOneTwoThree 0 false
      = "set(\x7b\n    1,\n    2,\n    3,\n\x7d)" ∧
    strStarts (processElement (PrettyRepr 20 4) setOneTwoThree 0 false) "set(" = true ∧
    strEnds (processElement (PrettyRepr 20 4) setOneTwoThree 0 false) ")" = true ∧
    processElement (PrettyStr 20 4) setOneTwoThree 0 false
      = "\x7b\n    1,\n    2,\n    3,\n\x7d" ∧
    reprSimpleR setOneTwoThree 0 false = "set(1 ,2 ,3)" ∧
    reprSimpleS setOneTwoThree 0 false = "set(1 ,2 ,3)" ∧
    processElement (PrettyRepr 20 4) setOneTwoThree 20 false
      = spaces 20 ++ "set(1 ,2 ,3)" ∧
    processElement (PrettyStr 20 4) setOneTwoThree 20 false
      = spaces 20 ++ "set(1 ,2 ,3)" ∧
    processElement (PrettyRepr 20 4) (PyObj.vSet []) 0 false = "set()" ∧
    processElement (PrettyStr 20 4) (PyObj.vSet []) 0 false = "set()" := by
  decide

/-- C4, counterexample: for a container, `no_indent_start=True` does not
suppress the leading pad — it prepends a newline and keeps the pad, so the
output begins with a newline followed by indentation whitespace before the
first token, and differs from the pad-stripped rendering the claim
describes. -/
theorem c4_counterexample_container_newline :
    processElement (PrettyRepr 20 4) (PyObj.vList [PyObj.vInt 1]) 4 false
      = "    list([\n        1,\n    ])" ∧
    processElement (PrettyRepr 20 4) (PyObj.vList [PyObj.vInt 1]) 4 true
      = "\n    list([\n        1,\n    ])" ∧
    processElement (PrettyRepr 20 4) (PyObj.vList [PyObj.vInt 1]) 4 true
      ≠ "list([\n        1,\n    ])" ∧
    (processElement (PrettyRepr 20 4) (PyObj.vList [PyObj.vInt 1]) 4 true).take 5
      = "\n    " := by
  decide

/-- C4 (amended): the `no_indent_start` flag suppresses the leading pad
only on the `_repr_simple` path (where the rendering then coincides with
the zero-indent one); on the container path the pad is kept and a leading
newline is prepended instead; on the callable path the flag has no effect
at all. -/
theorem c4_no_indent_start_flag :
    (∀ (fmt : PrettyFormat) (v : PyObj) (ind : Nat),
        reprSimpleFor fmt v ind true = reprSimpleFor fmt v 0 false) ∧
    (∀ (fmt : PrettyFormat) (v : PyObj) (ind : Nat),
        plainTop v = true →
        (simpleV v || decide (fmt.maxIndent ≤ ind) || isFalsy v) = false →
        processElement fmt v ind true = "\n" ++ processElement fmt v ind false) ∧
    (∀ (fmt : PrettyFormat) (fname : String)
        (ps : List (String × PKind × Option String × Option PyObj))
        (retAnnot : Option String) (ind : Nat) (a b : Bool),
        processElement fmt (PyObj.vFunc fname ps retAnnot) ind a
          = processElement fmt (PyObj.vFunc fname ps retAnnot) ind b) := by
  refine ⟨?_, ?_, fun _ _ _ _ _ _ _ => rfl⟩
  · intro fmt v ind
    obtain ⟨m, M, S⟩ := fmt
    cases m <;> cases v <;>
      simp [reprSimpleFor, reprSimpleR, reprSimpleS, stringsRepr, stringsStr]
  · intro fmt v ind hp hguard
    cases v with
    | vNone => simp [simpleV] at hguard
    | vBool b => simp [simpleV] at hguard
    | vInt n => simp [simpleV] at hguard
    | vStr s => simp [simpleV] at hguard
    | vBytes s => simp [simpleV] at hguard
    | vList xs =>
      simp only [processElement, hguard, Bool.false_eq_true, if_false]
      rw [reprIterItemFor_newline]
    | vTuple xs =>
      simp only [processElement, hguard, Bool.false_eq_true, if_false]
      rw [reprIterItemFor_newline]
    | vSet xs =>
      simp only [processElement, hguard, Bool.false_eq_true, if_false]
      rw [reprIterItemFor_newline]
    | vFrozenset xs =>
      simp only [processElement, hguard, Bool.false_eq_true, if_false]
      rw [reprIterItemFor_newline]
    | vDict es =>
      simp only [processElement, hguard, Bool.false_eq_true, if_false]
      rw [reprIterItemFor_newline]
    | vFunc a b c => simp [plainTop] at hp
    | vHooked a b c => simp [plainTop] at hp

/-- Witness for `c4_no_indent_start_flag` at a concrete container input. -/
theorem c4_no_indent_start_flag_witness :
    plainTop (PyObj.vList [PyObj.vInt 1]) = true ∧
    (simpleV (PyObj.vList [PyObj.vInt 1])
        || decide ((PrettyRepr 20 4).maxIndent ≤ 4)
        || isFalsy (PyObj.vList [PyObj.vInt 1])) = false ∧
    processElement (PrettyRepr 20 4) (PyObj.vList [PyObj.vInt 1]) 4 true
      = "\n" ++ processElement (PrettyRepr 20 4) (PyObj.vList [PyObj.vInt 1]) 4 false :=
  ⟨by decide, by decide,
    c4_no_indent_start_flag.2.1 (PrettyRepr 20 4) (PyObj.vList [PyObj.vInt 1]) 4
      (by decide) (by decide)⟩

/-- C5: the escape table maps each of backslash, newline, carriage return,
form feed, vertical tab, backspace, tab and bell to its two-character
escape; `hello` newline `world` renders in repr-style with the `u` prefix
marker, triple quotes and the escaped newline (`b` prefix for the
byte-string variant), and in str-style as the literal text with the raw
newline and no quoting or escaping. -/
theorem c5_string_escaping_modes :
    escapeChar '\\' = "\\\\" ∧ escapeChar '\n' = "\\n" ∧ escapeChar '\r' = "\\r" ∧
    escapeChar (Char.ofNat 12) = "\\f" ∧ escapeChar (Char.ofNat 11) = "\\v" ∧
    escapeChar (Char.ofNat 8) = "\\b" ∧ escapeChar '\t' = "\\t" ∧
    escapeChar (Char.ofNat 7) = "\\a" ∧
    processElement (PrettyRepr 20 4) (PyObj.vStr "hello\nworld") 0 false
      = "u\x27\x27\x27hello\\nworld\x27\x27\x27" ∧
    processElement (PrettyRepr 20 4) (PyObj.vBytes "hello\nworld") 0 false
      = "b\x27\x27\x27hello\\nworld\x27\x27\x27" ∧
    processElement (PrettyStr 20 4) (PyObj.vStr "hello\nworld") 0 false
      = "hello\nworld" ∧
    processElement (PrettyStr 20 4) (PyObj.vBytes "hello\nworld") 0 false
      = "hello\nworld" := by
  decide

/-- C10: a non-empty frozenset below the max_indent bound is classified as
a container and rendered through the iterable branch with brace brackets —
in repr-style as `frozenset({` one element per line `})`; the uniform
`set(...)` notation does not apply to it even on the simple-renderer path,
which falls back to `repr` for a frozenset. -/
theorem c10_frozenset_container_branch :
    (∀ (M S : Nat) (x : PyObj) (xs : List PyObj) (ind : Nat) (nis : Bool),
        ind < M →
        processElement (PrettyRepr M S) (PyObj.vFrozenset (x :: xs)) ind nis
          = reprIterItemR nis "frozenset" "\x7b" ind
              (reprIterableItems (PrettyRepr M S) (x :: xs) ind) "\x7d") ∧
    processElement (PrettyRepr 20 4) (PyObj.vFrozenset [PyObj.vInt 1]) 0 false
      = "frozenset(\x7b\n    1,\n\x7d)" ∧
    reprSimpleR (PyObj.vFrozenset [PyObj.vInt 1]) 0 false = "frozenset(\x7b1\x7d)" ∧
    strStarts (reprSimpleR (PyObj.vFrozenset [PyObj.vInt 1]) 0 false) "set(" = false := by
  refine ⟨?_, by decide, by decide, by decide⟩
  intro M S x xs ind nis h
  have hnot : ¬(M ≤ ind) := Nat.not_le.mpr h
  simp [processElement, simpleV, isFalsy, hnot, reprIterItemFor, PrettyRepr]

/-- Witness for `c10_frozenset_container_branch` at a concrete input. -/
theorem c10_frozenset_container_branch_witness :
    (0 : Nat) < 20 ∧
    processElement (PrettyRepr 20 4) (PyObj.vFrozenset [PyObj.vInt 1]) 0 false
      = reprIterItemR false "frozenset" "\x7b" 0
          (reprIterableItems (PrettyRepr 20 4) [PyObj.vInt 1] 0) "\x7d" :=
  ⟨by decide,
    c10_frozenset_container_branch.1 20 4 (PyObj.vInt 1) [] 0 false (by decide)⟩

/-- C6: in both modes, `_repr_dict_items` first computes the width of the
widest rendered key (repr length per key in repr-style, str length in
str-style, through `keyRender`/`maxKeyLen`), every emitted row pads its key
field to exactly that width, and the `": "` separator together with the
value column therefore starts at the same horizontal offset
`1 + next_indent + widest width + 2` on every row. -/
theorem c6_dict_key_alignment :
    ∀ (fmt : PrettyFormat) (es : List (PyObj × PyObj)) (ind : Nat) (p : PyObj × PyObj),
      p ∈ es →
      reprDictRows fmt es ind (maxKeyLen fmt es)
        = es.map (dictRow fmt (maxKeyLen fmt es) ind) ∧
      dictRow fmt (maxKeyLen fmt es) ind p
        = "\n" ++ spaces (nextIndent fmt ind 1)
          ++ leftJust (keyRender fmt p.1) (maxKeyLen fmt es) ++ ": "
          ++ processElement fmt p.2 (nextIndent fmt ind 2) true ++ "," ∧
      (leftJust (keyRender fmt p.1) (maxKeyLen fmt es)).length = maxKeyLen fmt es ∧
      ("\n" ++ spaces (nextIndent fmt ind 1)
          ++ leftJust (keyRender fmt p.1) (maxKeyLen fmt es) ++ ": ").length
        = 1 + nextIndent fmt ind 1 + maxKeyLen fmt es + 2 := by
  intro fmt es ind p hp
  have hkey := keyRender_le_maxKeyLen fmt es p hp
  refine ⟨reprDictRows_eq_map fmt ind (maxKeyLen fmt es) es, rfl, leftJust_length hkey, ?_⟩
  have h1 : ("\n" : String).length = 1 := rfl
  have h2 : (": " : String).length = 2 := rfl
  simp only [String.length_append, spaces_length, leftJust_length hkey, h1, h2]

/-- Dict example with rendered key lengths 1, 3 and 5. -/
def dictEx : List (PyObj × PyObj) :=
  [(PyObj.vInt 1, PyObj.vNone), (PyObj.vInt 100, PyObj.vNone),
   (PyObj.vInt 10000, PyObj.vNone)]

/-- Witness for `c6_dict_key_alignment` on a dict with key widths
1, 3, 5. -/
theorem c6_dict_key_alignment_witness :
    (PyObj.vInt 100, PyObj.vNone) ∈ dictEx ∧
    (leftJust (keyRender (PrettyRepr 20 4) (PyObj.vInt 100, PyObj.vNone).1)
        (maxKeyLen (PrettyRepr 20 4) dictEx)).length
      = maxKeyLen (PrettyRepr 20 4) dictEx :=
  ⟨by unfold dictEx; exact List.mem_cons_of_mem _ (List.mem_cons_self _ _),
    (c6_dict_key_alignment (PrettyRepr 20 4) dictEx 0 (PyObj.vInt 100, PyObj.vNone)
      (by unfold dictEx; exact List.mem_cons_of_mem _ (List.mem_cons_self _ _))).2.2.1⟩

/-- Function with a single bare `*args` parameter, as used by the C7
counterexample. -/
def starArgsFunc : PyObj :=
  PyObj.vFunc "f" [("args", PKind.varPositional, none, none)] none

/-- C7, counterexample: in the signature renderer (`_repr_callable`), a
VAR_POSITIONAL parameter without a bound value and without a default is
rendered as `*args,` with the whole `=value` clause omitted — the output
contains no `()` and no `=` at all, rather than the empty-tuple value the
claim asserts. -/
theorem c7_counterexample_signature_renderer :
    processElement (PrettyRepr 20 4) starArgsFunc 0 false
      = "\n<<function f> with interface (\n    *args,\n)>" ∧
    strContains (processElement (PrettyRepr 20 4) starArgsFunc 0 false) "()" = false ∧
    strContains (processElement (PrettyRepr 20 4) starArgsFunc 0 false) "=" = false := by
  decide

/-- Default `LogWrap` configuration: `log_level=DEBUG`, `exc_level=ERROR`,
`max_indent=20`, empty blacklists, all logging switches on. -/
def cfgDefault : LogWrapCfg :=
  ⟨10, 40, 20, [], [], true, true, true, true⟩

/-- C7 (amended): a VAR_POSITIONAL / VAR_KEYWORD parameter without an
explicit bound value renders with the empty-tuple / empty-mapping value —
never as an unset marker — in `BoundParameter.__str__` and in
`LogWrap._get_func_args_repr`; in the signature renderer
(`_repr_callable`) such a parameter instead renders with no value clause
at all (also never as an unset marker). -/
theorem c7_variadic_empty_values :
    (∀ nm : String,
        boundParameterStr ⟨nm, PKind.varPositional, none, none, none⟩
          = "*" ++ nm ++ "=()") ∧
    (∀ nm : String,
        boundParameterStr ⟨nm, PKind.varKeyword, none, none, none⟩
          = "**" ++ nm ++ "=\x7b\x7d") ∧
    getFuncArgsRepr cfgDefault [⟨"args", PKind.varPositional, none, none, none⟩]
      = "\n    # VAR_POSITIONAL:\n    \x27args\x27=(),\n" ∧
    getFuncArgsRepr cfgDefault [⟨"kwargs", PKind.varKeyword, none, none, none⟩]
      = "\n    # VAR_KEYWORD:\n    \x27kwargs\x27=\x7b\x7d,\n" ∧
    (∀ (fmt : PrettyFormat) (nm : String) (ind : Nat),
        reprCallableParamStr fmt [(nm, PKind.varPositional, none, none)] ind
          = "\n" ++ spaces (nextIndent fmt ind 1) ++ "*" ++ nm ++ ",") ∧
    (∀ (fmt : PrettyFormat) (nm : String) (ind : Nat),
        reprCallableParamStr fmt [(nm, PKind.varKeyword, none, none)] ind
          = "\n" ++ spaces (nextIndent fmt ind 1) ++ "**" ++ nm ++ ",") := by
  refine ⟨?_, ?_, by decide, by decide, ?_, ?_⟩
  · intro nm
    simp only [boundParameterStr, bpEffectiveValue, pyRepr, joinSep, pyReprList,
      String.append_empty, String.append_assoc]
    rfl
  · intro nm
    simp only [boundParameterStr, bpEffectiveValue, pyRepr, joinSep, pyReprEntries,
      String.append_empty, String.append_assoc]
    rfl
  · intro fmt nm ind
    simp only [reprCallableParamStr, String.append_empty, String.append_assoc]
  · intro fmt nm ind
    simp only [reprCallableParamStr, String.append_empty, String.append_assoc]

/-- Bound parameter with a value and no default, used by the C8
counterexample. -/
def plainParam : BoundParam :=
  ⟨"x", PKind.positionalOrKeyword, none, none, some (PyObj.vInt 1)⟩

/-- C8, counterexample: the `BoundParameter` variant that subclasses
`inspect.Parameter` defines no `__hash__` of its own, so hashing succeeds
through the inherited `inspect.Parameter.__hash__` instead of failing
fast. -/
theorem c8_counterexample_subclass_hash :
    boundParameterSubclassHash plainParam = Except.ok 1 ∧
    boundParameterSubclassHash plainParam
      ≠ Except.error "unhashable type: \x27BoundParameter\x27" := by
  refine ⟨rfl, ?_⟩
  intro h
  rw [show boundParameterSubclassHash plainParam = Except.ok 1 from rfl] at h
  exact Except.noConfusion h

/-- C8 (amended): `ReprParameter.__hash__` and the standalone
`BoundParameter.__hash__` always fail fast with the TypeError message
`unhashable type: ...`; the later `BoundParameter` variant that subclasses
`inspect.Parameter` defines no `__hash__`, so it falls back to the
inherited parameter hash, which succeeds whenever the default value is
hashable (in particular whenever there is no default). -/
theorem c8_parameter_hashing :
    (∀ p : ReprParam,
        reprParameterHash p = Except.error "unhashable type: \x27ReprParameter\x27") ∧
    (∀ p : BoundParam,
        boundParameterHash p = Except.error "unhashable type: \x27BoundParameter\x27") ∧
    (∀ p : BoundParam, p.pdefault = none →
        ∃ n, boundParameterSubclassHash p = Except.ok n) := by
  refine ⟨fun _ => rfl, fun _ => rfl, ?_⟩
  intro p hp
  refine ⟨p.pname.length, ?_⟩
  simp [boundParameterSubclassHash, inspectParameterHash, hp]

/-- Witness for `c8_parameter_hashing` at a concrete parameter without a
default. -/
theorem c8_parameter_hashing_witness :
    plainParam.pdefault = none ∧
    ∃ n, boundParameterSubclassHash plainParam = Except.ok n :=
  ⟨rfl, c8_parameter_hashing.2.2 plainParam rfl⟩

/-- C9: in the wrapper, a raised exception whose type is blacklisted is
re-raised unchanged with no exception record emitted (first variant) — the
only records are the calling record; a non-blacklisted exception produces
the error-level record and is also re-raised unchanged; the module-logger
variant always emits the error-level record but degrades its body to the
bare exception class name for a blacklisted exception (no detailed
traceback); in every case, including success, the outcome propagates
unchanged. -/
theorem c9_blacklisted_exception_handling :
    ∀ (cfg : LogWrapCfg) (fname argsRepr tbText detailedTb : String) (e : PyExc)
      (r : PyObj),
      (cfg.blacklistedExceptions.contains e.excType = true →
        wrapperV1 cfg fname argsRepr tbText (CallResult.raised e)
          = ([makeCallingRecordV1 cfg fname argsRepr "Calling"], CallResult.raised e)) ∧
      (cfg.blacklistedExceptions.contains e.excType = false →
        wrapperV1 cfg fname argsRepr tbText (CallResult.raised e)
          = ([makeCallingRecordV1 cfg fname argsRepr "Calling",
              makeExcRecordV1 cfg fname argsRepr tbText], CallResult.raised e)) ∧
      (wrapperV1 cfg fname argsRepr tbText (CallResult.raised e)).2 = CallResult.raised e ∧
      (cfg.blacklistedExceptions.contains e.excType = true →
        makeExcRecordV3 cfg fname argsRepr e detailedTb
          = ⟨cfg.excLevel,
              "Failed: \n" ++ fname ++ "("
                ++ (if cfg.logCallArgsOnExc then argsRepr else "") ++ ")\n"
                ++ e.excType⟩) ∧
      (cfg.blacklistedExceptions.contains e.excType = false → cfg.logTraceback = true →
        makeExcRecordV3 cfg fname argsRepr e detailedTb
          = ⟨cfg.excLevel,
              "Failed: \n" ++ fname ++ "("
                ++ (if cfg.logCallArgsOnExc then argsRepr else "") ++ ")\n"
                ++ detailedTb⟩) ∧
      (wrapperV3 cfg fname argsRepr detailedTb (CallResult.raised e)).2
        = CallResult.raised e ∧
      (wrapperV1 cfg fname argsRepr tbText (CallResult.finished r)).2
        = CallResult.finished r := by
  intro cfg fname argsRepr tbText detailedTb e r
  refine ⟨?_, ?_, ?_, ?_, ?_, rfl, rfl⟩
  · intro h
    simp at h
    simp [wrapperV1, h]
  · intro h
    simp at h
    simp [wrapperV1, h]
  · simp only [wrapperV1]
    split <;> rfl
  · intro h
    simp at h
    simp [makeExcRecordV3, h]
  · intro h ht
    simp at h
    simp [makeExcRecordV3, h, ht]

/-- Blacklist configuration used by the C9 witness. -/
def cfgBlk : LogWrapCfg :=
  ⟨10, 40, 20, [], ["ValueError"], true, true, true, true⟩

/-- Witness for `c9_blacklisted_exception_handling`: one blacklisted and
one non-blacklisted concrete exception. -/
theorem c9_blacklisted_exception_handling_witness :
    (cfgBlk.blacklistedExceptions.contains "ValueError" = true ∧
      wrapperV1 cfgBlk "f" "a" "tb" (CallResult.raised ⟨"ValueError", "boom"⟩)
        = ([makeCallingRecordV1 cfgBlk "f" "a" "Calling"],
            CallResult.raised ⟨"ValueError", "boom"⟩)) ∧
    (cfgBlk.blacklistedExceptions.contains "KeyError" = false ∧
      wrapperV1 cfgBlk "f" "a" "tb" (CallResult.raised ⟨"KeyError", "missing"⟩)
        = ([makeCallingRecordV1 cfgBlk "f" "a" "Calling",
            makeExcRecordV1 cfgBlk "f" "a" "tb"],
            CallResult.raised ⟨"KeyError", "missing"⟩)) :=
  ⟨⟨by decide,
      (c9_blacklisted_exception_handling cfgBlk "f" "a" "tb" "dtb" ⟨"ValueError", "boom"⟩
        PyObj.vNone).1 (by decide)⟩,
    ⟨by decide,
      (c9_blacklisted_exception_handling cfgBlk "f" "a" "tb" "dtb" ⟨"KeyError", "missing"⟩
        PyObj.vNone).2.1 (by decide)⟩⟩
